import Mathlib

/-!
Shallow embedding of the `AgentCode-Cil` demo programs
(`src/test-rust-generation-demo/vulnerable.rs`,
`src/test-rust-generation-demo/vulnerable_iter1.rs`,
`src/test-start-workflow/vulnerable.rs`) and proofs about their
bounded-copy and allocation-guard routines.

Buffers of `u8` are embedded as `List Nat` (byte values; no arithmetic is
ever performed on them, so no wrap-around modelling is needed).  `usize`
is embedded as `Nat`, with the platform constant `usize::MAX` made
explicit.  Rust's in-place mutation of a `&mut [u8]` destination is
embedded by explicit state passing: each operation returns the final
contents of the destination buffer.  Rust's `io::Result` is embedded as
`Except IoError`.
-/

/-- Embedding of `std::io::ErrorKind` (only the variant the programs use). -/
inductive ErrorKind where
  | invalidInput
  deriving DecidableEq

/-- Embedding of `std::io::Error` as constructed by `io::Error::new(kind, msg)`. -/
structure IoError where
  kind : ErrorKind
  msg : String
  deriving DecidableEq

/-- The platform constant `usize::MAX` on the 64-bit targets the demos build for. -/
def USIZE_MAX : Nat := 2 ^ 64 - 1

/-- The constant `std::mem::size_of::<u8>()`. -/
def size_of_u8 : Nat := 1

/-- ASCII-lowercased code points of a string, used to state that two error
messages agree up to letter case. -/
def lowerCodes (s : String) : List Nat :=
  s.data.map (fun c => if 65 ≤ c.toNat ∧ c.toNat ≤ 90 then c.toNat + 32 else c.toNat)

/-- Embedding of `str::as_bytes`: the UTF-8 bytes of a string, as `Nat`s. -/
def strBytes (s : String) : List Nat :=
  (s.data.map String.utf8EncodeChar).flatten.map (fun b => b.toNat)

/-- Truncating `safe_copy` (Policy A), from `vulnerable_iter1.rs` lines 5-8 and
`test-start-workflow/vulnerable.rs` lines 5-8:
`let len = dest.len().min(src.len()); dest[..len].copy_from_slice(&src[..len]);`.
The returned list is the destination buffer after the call. -/
def safe_copy_trunc (dest src : List Nat) : List Nat :=
  let len := min dest.length src.length
  src.take len ++ dest.drop len

/-- Embedding of the slicing expression `&buf[..n]`, which panics (returns
`none`) when `n` exceeds the slice length. -/
def slice_to (buf : List Nat) (n : Nat) : Option (List Nat) :=
  if n ≤ buf.length then some (buf.take n) else none

/-- Embedding of `<[u8]>::copy_from_slice`, which panics (returns `none`) when
the two slices have different lengths, and otherwise overwrites the
destination slice with the source slice. -/
def copy_from_slice (dst src : List Nat) : Option (List Nat) :=
  if dst.length = src.length then some src else none

/-- Truncating `safe_copy` with every slicing operation and the
`copy_from_slice` call modelled by its panicking-aware embedding: `none`
means some indexing step went out of bounds. -/
def safe_copy_trunc_checked (dest src : List Nat) : Option (List Nat) := do
  let len := min dest.length src.length
  let s ← slice_to src len
  let d ← slice_to dest len
  let d2 ← copy_from_slice d s
  some (d2 ++ dest.drop len)

/-- Validating `safe_copy` (Policy B), from `vulnerable.rs` lines 6-15.
First component: the `io::Result<()>` return value; second component: the
destination buffer after the call. -/
def safe_copy_valid (dest src : List Nat) : Except IoError Unit × List Nat :=
  if src.length > dest.length then
    (Except.error ⟨ErrorKind.invalidInput, "Source too large for destination"⟩, dest)
  else
    (Except.ok (), src ++ dest.drop src.length)

/-- The buffer `vec![0u8; size]` allocated in the success branch of each
`safe_allocation` variant. -/
def alloc_buffer (size : Nat) : List Nat := List.replicate size 0

/-- Validating `safe_allocation`, from `vulnerable.rs` lines 27-42.  First
component: the `io::Result<()>` return value; second component: the buffer
allocated during the call (`none` when nothing was allocated — the buffer is
dropped before the function returns and is never part of its return value). -/
def safe_allocation_valid (size : Nat) : Except IoError Unit × Option (List Nat) :=
  if size = 0 then
    (Except.error ⟨ErrorKind.invalidInput, "Size must be positive"⟩, none)
  else if size > USIZE_MAX / size_of_u8 then
    (Except.error ⟨ErrorKind.invalidInput, "Size too large, potential overflow"⟩, none)
  else
    (Except.ok (), some (alloc_buffer size))

/-- Non-failing `safe_allocation` from `vulnerable_iter1.rs` lines 21-26: the
Rust function returns `()`, so the embedding records only the buffer
allocated during the call (`none` when the guard skipped the allocation). -/
def safe_allocation_iter1 (size : Nat) : Option (List Nat) :=
  if 0 < size ∧ size < USIZE_MAX / size_of_u8 then some (alloc_buffer size) else none

/-- Non-failing `safe_allocation` from `test-start-workflow/vulnerable.rs`
lines 21-26: allocates whenever `size > 0`, returns `()`. -/
def safe_allocation_sw (size : Nat) : Option (List Nat) :=
  if 0 < size then some (alloc_buffer size) else none

/-- Exit code of a Rust `fn main() -> io::Result<()>`: `0` on `Ok`, nonzero
(embedded as `1`) on `Err`. -/
def exit_code {α : Type} (r : Except IoError α) : Nat :=
  match r with
  | Except.ok _ => 0
  | Except.error _ => 1

/-- Embedding of `main` from `vulnerable.rs` lines 49-64.  The argument is
`env::args()` (program name first); the result is the list of lines printed
to stdout, or the error propagated by `?`. -/
def main_valid (args : List String) : Except IoError (List String) :=
  match args with
  | _ :: arg1 :: _ =>
      let buffer := List.replicate 10 (0 : Nat)
      match (safe_copy_valid buffer (strBytes arg1)).1 with
      | Except.error e => Except.error e
      | Except.ok () =>
          let out := [arg1, "Safe data"]
          let _data := List.replicate 256 (0 : Nat)
          match (safe_allocation_valid 1000000000).1 with
          | Except.error e => Except.error e
          | Except.ok () => Except.ok (out ++ ["Done"])
  | _ =>
      let out : List String := ["Safe data"]
      let _data := List.replicate 256 (0 : Nat)
      match (safe_allocation_valid 1000000000).1 with
      | Except.error e => Except.error e
      | Except.ok () => Except.ok (out ++ ["Done"])

/-- Embedding of `main` from `vulnerable_iter1.rs` lines 32-46: never fails,
returns the list of lines printed to stdout. -/
def main_iter1 (args : List String) : List String :=
  (match args with
   | _ :: arg1 :: _ =>
       let buffer := List.replicate 10 (0 : Nat)
       let _buffer := safe_copy_trunc buffer (strBytes arg1)
       [arg1]
   | _ => []) ++ ["Safe data"] ++ ["Done"]

/-- Helper: the truncating copy preserves the destination's capacity. -/
theorem safe_copy_trunc_length (dest src : List Nat) :
    (safe_copy_trunc dest src).length = dest.length := by
  simp [safe_copy_trunc]

/-- C1: the truncating `safe_copy` copies exactly the first
`n = min C L` bytes of source into the first `n` bytes of destination and
leaves every destination byte at index `≥ n` unchanged (the destination
keeps its capacity). -/
theorem C1_truncating_copy (dest src : List Nat) :
    (safe_copy_trunc dest src).length = dest.length ∧
    (∀ i, i < min dest.length src.length → (safe_copy_trunc dest src)[i]? = src[i]?) ∧
    (∀ i, min dest.length src.length ≤ i → (safe_copy_trunc dest src)[i]? = dest[i]?) := by
  have htk : (src.take (min dest.length src.length)).length = min dest.length src.length := by
    rw [List.length_take]
    omega
  refine ⟨safe_copy_trunc_length dest src, ?_, ?_⟩
  · intro i hi
    unfold safe_copy_trunc
    rw [List.getElem?_append, htk, if_pos hi, List.getElem?_take, if_pos hi]
  · intro i hi
    unfold safe_copy_trunc
    rw [List.getElem?_append_right (by omega : (src.take (min dest.length src.length)).length ≤ i)]
    rw [htk, List.getElem?_drop]
    congr 1
    omega

/-- Witness for C1 at destination `[9, 9, 9]`, source `[1, 2]`. -/
theorem C1_truncating_copy_witness :
    (safe_copy_trunc [9, 9, 9] [1, 2])[0]? = some 1 ∧
    (safe_copy_trunc [9, 9, 9] [1, 2])[2]? = some 9 := by
  have h := C1_truncating_copy [9, 9, 9] [1, 2]
  exact ⟨(h.2.1 0 (by decide)).trans rfl, (h.2.2 2 (by decide)).trans rfl⟩

/-- C4: the truncating `safe_copy` never panics: every slicing step stays in
bounds and `copy_from_slice` gets slices of equal length, so the
panicking-aware embedding returns the same final destination, which has the
destination's original capacity (the only effect is mutating destination:
both embeddings are pure functions of the two buffers). -/
theorem C4_trunc_total_inbounds (dest src : List Nat) :
    safe_copy_trunc_checked dest src = some (safe_copy_trunc dest src) ∧
    (safe_copy_trunc dest src).length = dest.length := by
  have h1 : min dest.length src.length ≤ src.length := Nat.min_le_right _ _
  have h2 : min dest.length src.length ≤ dest.length := Nat.min_le_left _ _
  have h3 : (List.take (min dest.length src.length) dest).length
      = (List.take (min dest.length src.length) src).length := by
    rw [List.length_take, List.length_take]
    omega
  constructor
  · simp only [safe_copy_trunc_checked, safe_copy_trunc, slice_to, copy_from_slice, bind,
      if_pos h1, if_pos h2, if_pos h3, Option.some_bind]
  · exact safe_copy_trunc_length dest src

/-- C2: when the source is longer than the destination, the validating
`safe_copy` returns an `InvalidInput` error whose message is
"source too large for destination" up to letter case, and the destination is
left entirely unmodified. -/
theorem C2_validating_copy_error (dest src : List Nat) (h : dest.length < src.length) :
    (safe_copy_valid dest src).1 =
      Except.error ⟨ErrorKind.invalidInput, "Source too large for destination"⟩ ∧
    (safe_copy_valid dest src).2 = dest ∧
    lowerCodes "Source too large for destination" =
      lowerCodes "source too large for destination" := by
  refine ⟨?_, ?_, by decide⟩ <;> simp [safe_copy_valid, h]

/-- Witness for C2 at destination `[]`, source `[0]`. -/
theorem C2_validating_copy_error_witness :
    (safe_copy_valid [] [0]).1 =
      Except.error ⟨ErrorKind.invalidInput, "Source too large for destination"⟩ ∧
    (safe_copy_valid [] [0]).2 = [] := by
  have h := C2_validating_copy_error [] [0] (by decide)
  exact ⟨h.1, h.2.1⟩

/-- C3: when the source fits, the validating `safe_copy` returns success, the
first `L` destination bytes afterwards equal the source, and the remaining
`C - L` bytes are unchanged (the destination keeps its capacity). -/
theorem C3_validating_copy_ok (dest src : List Nat) (h : src.length ≤ dest.length) :
    (safe_copy_valid dest src).1 = Except.ok () ∧
    (safe_copy_valid dest src).2.length = dest.length ∧
    (∀ i, i < src.length → (safe_copy_valid dest src).2[i]? = src[i]?) ∧
    (∀ i, src.length ≤ i → (safe_copy_valid dest src).2[i]? = dest[i]?) := by
  have hn : ¬ src.length > dest.length := Nat.not_lt.mpr h
  refine ⟨by simp [safe_copy_valid, hn], ?_, ?_, ?_⟩
  · simp [safe_copy_valid, hn]
    omega
  · intro i hi
    simp only [safe_copy_valid, if_neg hn]
    rw [List.getElem?_append, if_pos hi]
  · intro i hi
    simp only [safe_copy_valid, if_neg hn]
    rw [List.getElem?_append_right hi, List.getElem?_drop]
    congr 1
    omega

/-- Witness for C3 at destination `[9, 9, 9]`, source `[1, 2]`. -/
theorem C3_validating_copy_ok_witness :
    (safe_copy_valid [9, 9, 9] [1, 2]).1 = Except.ok () ∧
    (safe_copy_valid [9, 9, 9] [1, 2]).2[0]? = some 1 ∧
    (safe_copy_valid [9, 9, 9] [1, 2]).2[2]? = some 9 := by
  have h' := C3_validating_copy_ok [9, 9, 9] [1, 2] (by decide)
  exact ⟨h'.1, (h'.2.2.1 0 (by decide)).trans rfl, (h'.2.2.2 2 (by decide)).trans rfl⟩

/-- C9: whenever the source fits, the validating `safe_copy` succeeds and
leaves the destination in exactly the state the truncating `safe_copy`
produces on the same inputs. -/
theorem C9_policies_agree (dest src : List Nat) (h : src.length ≤ dest.length) :
    safe_copy_valid dest src = (Except.ok (), safe_copy_trunc dest src) := by
  have hn : ¬ src.length > dest.length := Nat.not_lt.mpr h
  have hmin : min dest.length src.length = src.length := by omega
  simp [safe_copy_valid, safe_copy_trunc, hn, hmin, List.take_of_length_le (Nat.le_refl _)]

/-- Witness for C9 at destination `[5, 5, 5]`, source `[1, 2]`. -/
theorem C9_policies_agree_witness :
    safe_copy_valid [5, 5, 5] [1, 2] = (Except.ok (), safe_copy_trunc [5, 5, 5] [1, 2]) :=
  C9_policies_agree [5, 5, 5] [1, 2] (by decide)

/-- C5: the validating `safe_allocation` rejects size `0` with an
`InvalidInput` error whose message is "size must be positive" up to letter
case, and allocates nothing. -/
theorem C5_alloc_zero :
    safe_allocation_valid 0 =
      (Except.error ⟨ErrorKind.invalidInput, "Size must be positive"⟩, none) ∧
    lowerCodes "Size must be positive" = lowerCodes "size must be positive" := by
  exact ⟨rfl, by decide⟩

/-- C6: whenever the byte count `size * size_of::<u8>()` exceeds
`usize::MAX`, the validating `safe_allocation` rejects the request with an
`InvalidInput` error whose message is "size too large, potential overflow"
up to letter case and allocates nothing; conversely, whenever it does
allocate, the byte count did not overflow. -/
theorem C6_alloc_overflow (size : Nat) :
    (USIZE_MAX < size * size_of_u8 →
      safe_allocation_valid size =
        (Except.error ⟨ErrorKind.invalidInput, "Size too large, potential overflow"⟩, none)) ∧
    ((safe_allocation_valid size).2.isSome = true → size * size_of_u8 ≤ USIZE_MAX) ∧
    lowerCodes "Size too large, potential overflow" =
      lowerCodes "size too large, potential overflow" := by
  have hmax : (0 : Nat) < USIZE_MAX := by decide
  have hdiv : USIZE_MAX / size_of_u8 = USIZE_MAX := Nat.div_one _
  refine ⟨?_, ?_, by decide⟩
  · intro h
    have h0 : size ≠ 0 := by
      intro h'
      rw [h'] at h
      omega
    have h1 : size > USIZE_MAX / size_of_u8 := by
      rw [hdiv]
      simp [size_of_u8] at h
      omega
    simp [safe_allocation_valid, h0, h1]
  · intro h
    by_contra hc
    have h1 : size > USIZE_MAX / size_of_u8 := by
      rw [hdiv]
      simp [size_of_u8] at hc
      omega
    have h0 : size ≠ 0 := by
      intro h'
      rw [h'] at h1
      omega
    simp [safe_allocation_valid, h0, h1] at h

/-- Witness for C6 at size `2 ^ 64` (byte count exceeds `usize::MAX`). -/
theorem C6_alloc_overflow_witness :
    safe_allocation_valid (2 ^ 64) =
      (Except.error ⟨ErrorKind.invalidInput, "Size too large, potential overflow"⟩, none) :=
  (C6_alloc_overflow (2 ^ 64)).1 (by decide)

/-- Counterexample to C7 as stated: the success value the validating
`safe_allocation` returns to its caller is the same for sizes `5` and `7`
(the bare `Ok(())`), so the caller is not handed a buffer of exactly `S`
bytes — the allocated `vec![0u8; size]` is bound to `_buffer` and dropped
inside the function. -/
theorem C7_counterexample :
    (safe_allocation_valid 5).1 = (safe_allocation_valid 7).1 ∧
    (safe_allocation_valid 5).1 = Except.ok () := by
  exact ⟨rfl, rfl⟩

/-- C7 (amended): for every size with `1 ≤ S` that does not trigger the
overflow rejection, the validating `safe_allocation` succeeds, internally
allocating a zero-initialized buffer of exactly `S` bytes that is dropped at
the end of the function's scope rather than returned to the caller; the
iteration-1 variant allocates the same buffer when additionally
`S < usize::MAX / size_of::<u8>()`. -/
theorem C7_alloc_success (size : Nat) (h1 : 1 ≤ size)
    (h2 : size ≤ USIZE_MAX / size_of_u8) :
    safe_allocation_valid size = (Except.ok (), some (alloc_buffer size)) ∧
    (alloc_buffer size).length = size ∧
    (∀ b ∈ alloc_buffer size, b = 0) ∧
    (size < USIZE_MAX / size_of_u8 → safe_allocation_iter1 size = some (alloc_buffer size)) := by
  have h0 : size ≠ 0 := by omega
  have hn : ¬ size > USIZE_MAX / size_of_u8 := Nat.not_lt.mpr h2
  refine ⟨by simp [safe_allocation_valid, h0, hn], by simp [alloc_buffer], ?_, ?_⟩
  · intro b hb
    exact List.eq_of_mem_replicate hb
  · intro hlt
    simp [safe_allocation_iter1, alloc_buffer]
    omega

/-- Witness for C7 (amended) at the size `main` passes, `1000000000`. -/
theorem C7_alloc_success_witness :
    safe_allocation_valid 1000000000 = (Except.ok (), some (alloc_buffer 1000000000)) :=
  (C7_alloc_success 1000000000 (by decide) (by decide)).1

/-- C8: running the validating program with single argument "hi" prints
"hi" verbatim, later prints the completion marker "Done", and exits with
code 0; the iteration-1 program prints the same lines. -/
theorem C8_cmdline_hi :
    main_valid ["program", "hi"] = Except.ok ["hi", "Safe data", "Done"] ∧
    exit_code (main_valid ["program", "hi"]) = 0 ∧
    "hi" ∈ ["hi", "Safe data", "Done"] ∧
    List.indexOf "hi" ["hi", "Safe data", "Done"] <
      List.indexOf "Done" ["hi", "Safe data", "Done"] ∧
    main_iter1 ["program", "hi"] = ["hi", "Safe data", "Done"] := by
  refine ⟨rfl, rfl, ?_, ?_, rfl⟩ <;> decide

/-- C10: the non-failing `safe_allocation` variants have no error channel at
all (they return `()` in Rust): for every size they return normally, either
skipping the allocation or allocating the zero buffer; in particular size
`0` is silently skipped by both, and size `usize::MAX` is also silently
skipped by the iteration-1 variant. -/
theorem C10_nonfailing_alloc :
    safe_allocation_iter1 0 = none ∧
    safe_allocation_sw 0 = none ∧
    safe_allocation_iter1 USIZE_MAX = none ∧
    (∀ size, safe_allocation_iter1 size = none ∨
      safe_allocation_iter1 size = some (alloc_buffer size)) ∧
    (∀ size, safe_allocation_sw size = none ∨
      safe_allocation_sw size = some (alloc_buffer size)) := by
  refine ⟨rfl, rfl, ?_, ?_, ?_⟩
  · have : ¬ (0 < USIZE_MAX ∧ USIZE_MAX < USIZE_MAX / size_of_u8) := by
      simp only [size_of_u8, Nat.div_one]
      omega
    simp [safe_allocation_iter1, this]
  · intro size
    by_cases h : 0 < size ∧ size < USIZE_MAX / size_of_u8
    · right
      simp [safe_allocation_iter1, h]
    · left
      simp [safe_allocation_iter1, h]
  · intro size
    by_cases h : 0 < size
    · right
      simp [safe_allocation_sw, h]
    · left
      simp [safe_allocation_sw, h]
